import Mathlib

/-!
Shallow embedding of `src/main.rs` (rust_book_chapter_10).

The repository is a single Rust file exercising generics, traits and
lifetimes.  The functions relevant to the claims are embedded as pure Lean
functions:

* `smallest` (main.rs lines 15-21): prints "less" when `one < two`, else
  "greater than or equal"; modelled as returning the printed string.
* the `Shape` trait (lines 104-136) with its `area` method and a `default`
  method carrying a default body, implemented for `Triangle` (overriding
  `default`) and `Square` (inheriting the default); printing methods are
  modelled as returning the printed string.  Rust `isize` values are
  modelled as `Int`; Rust integer division truncates toward zero, which is
  `Int.tdiv`.
* `get_area` (lines 157-159) and `get_area_long` (lines 165-167).
* `return_area` (lines 176-178).
* `Pair`, `Pair::new` and `Pair::cmp_display` (lines 198-218); `&self`
  methods are modelled state-passing style, returning the (unchanged)
  receiver together with the printed string.
* `largest_int` (lines 231-237) takes two references and returns one of
  them; references are modelled as addresses into a store `Nat → Int`, so
  that which reference is returned is observable even when the two values
  are equal.
-/

namespace RustBookCh10

/-- `fn smallest<T: PartialOrd>(one: T, two: T)` from main.rs lines 15-21.
Rust `PartialOrd` gives a decidable strict order that may leave elements
incomparable; the `if one < two` test is modelled by a decidable `<`. -/
def smallest {T : Type} [LT T] [DecidableRel ((· < ·) : T → T → Prop)]
    (one two : T) : String :=
  if one < two then "less" else "greater than or equal"

/-- The `Shape` trait from main.rs lines 104-111: a required `area` method
and a `default` method whose default body prints "default called". -/
class Shape (α : Type) where
  area : α → Int
  default : α → String := fun _ => "default called"

/-- `struct Triangle` from main.rs lines 113-116. -/
structure Triangle where
  base : Int
  height : Int

/-- `struct Square` from main.rs lines 118-120. -/
structure Square where
  height : Int

/-- `impl Shape for Triangle` from main.rs lines 122-130: area is
`(self.height * self.base)/2` (truncating division) and `default` is
overridden. -/
instance : Shape Triangle where
  area t := (t.height * t.base).tdiv 2
  default _ := "Triangle default called."

/-- `impl Shape for Square` from main.rs lines 132-136: area is
`self.height * self.height`; `default` is not overridden. -/
instance : Shape Square where
  area s := s.height * s.height

/-- `fn get_area(shape: &impl Shape)` from main.rs lines 157-159. -/
def get_area {α : Type} [Shape α] (shape : α) : String :=
  "Area is " ++ toString (Shape.area shape)

/-- `fn get_area_long<T: Shape>(shape: &T)` from main.rs lines 165-167. -/
def get_area_long {α : Type} [Shape α] (shape : α) : String :=
  "Area is " ++ toString (Shape.area shape)

/-- `fn return_area() -> impl Shape` from main.rs lines 176-178: always
returns `Square{height: 15}`. -/
def return_area : Square :=
  { height := 15 }

/-- `struct Pair<T>` from main.rs lines 198-201. -/
structure Pair (T : Type) where
  x : T
  y : T

/-- `Pair::new` from main.rs lines 203-207. -/
def Pair.new {T : Type} (x y : T) : Pair T :=
  { x := x, y := y }

/-- `Pair::cmp_display` from main.rs lines 210-218: on `&self`, prints which
field is largest, testing `self.x >= self.y` (that is, `self.y ≤ self.x`).
Modelled state-passing style: the result carries the receiver (unchanged,
since the method takes `&self`) and the printed string. -/
def Pair.cmp_display {T : Type} [ToString T] [Preorder T]
    [DecidableRel ((· ≤ ·) : T → T → Prop)] (self : Pair T) :
    Pair T × String :=
  if self.y ≤ self.x then
    (self, "The largest member is x = " ++ toString self.x)
  else
    (self, "The largest member is y = " ++ toString self.y)

/-- `fn largest_int<'a>(x: &'a i32, y: &'a i32) -> &'a i32` from main.rs
lines 231-237.  References are addresses into a `store`; comparing two
`&i32` in Rust compares the pointed-to values, and the function returns
the first reference when `*x > *y`, otherwise the second. -/
def largest_int (store : Nat → Int) (x y : Nat) : Nat :=
  if store x > store y then x else y

/-- In the componentwise preorder on `Int × Int` the strict order is
decidable; this instance lets `smallest` be evaluated on pairs, giving a
concrete partially ordered type with incomparable elements. -/
instance : DecidableRel ((· < ·) : Int × Int → Int × Int → Prop) :=
  fun p q => decidable_of_iff (p ≤ q ∧ ¬ q ≤ p) lt_iff_le_not_le.symm

/-- C1: for every pair over an ordered displayable type, `cmp_display`
reports `x` as the largest member when `x >= y` (that is, `y ≤ x`) and
otherwise reports `y`; in particular on a tie `x = y` it reports `x`. -/
theorem cmp_display_reports_largest {T : Type} [ToString T] [Preorder T]
    [DecidableRel ((· ≤ ·) : T → T → Prop)] (p : Pair T) :
    (p.y ≤ p.x →
      (Pair.cmp_display p).2 = "The largest member is x = " ++ toString p.x) ∧
    (¬ p.y ≤ p.x →
      (Pair.cmp_display p).2 = "The largest member is y = " ++ toString p.y) ∧
    (p.x = p.y →
      (Pair.cmp_display p).2 = "The largest member is x = " ++ toString p.x) := by
  refine ⟨fun h => ?_, fun h => ?_, fun h => ?_⟩
  · simp [Pair.cmp_display, h]
  · simp [Pair.cmp_display, h]
  · simp [Pair.cmp_display, le_of_eq h.symm]

/-- C2: every triangle's area is `(base * height) / 2` with truncating
integer division; concretely, base 5 and height 10 give 25, and base 5 and
height 9 give 22 (45 truncated by 2, not 22.5). -/
theorem triangle_area_truncating :
    (∀ t : Triangle, Shape.area t = (t.base * t.height).tdiv 2) ∧
    Shape.area (Triangle.mk 5 10) = 25 ∧
    Shape.area (Triangle.mk 5 9) = 22 := by
  refine ⟨fun t => ?_, by decide, by decide⟩
  show (t.height * t.base).tdiv 2 = (t.base * t.height).tdiv 2
  rw [mul_comm]

/-- C3: for every shape value, `get_area` (interface-reference form) and
`get_area_long` (type-parameterized generic form) produce identical
output. -/
theorem get_area_dispatch_equiv {α : Type} [Shape α] (shape : α) :
    get_area shape = get_area_long shape :=
  rfl

/-- C4: every square's area is `side * side`; concretely, side 10 gives 100
and side 15 gives 225. -/
theorem square_area_correct :
    (∀ s : Square, Shape.area s = s.height * s.height) ∧
    Shape.area (Square.mk 10) = 100 ∧
    Shape.area (Square.mk 15) = 225 := by
  refine ⟨fun s => rfl, by decide, by decide⟩

/-- C5: a variant that does not override the default method (`Square`)
produces the generic default report, while `Triangle`, which overrides it,
produces its specialized report: the override takes precedence. -/
theorem describe_override_precedence :
    (∀ s : Square, Shape.default s = "default called") ∧
    (∀ t : Triangle, Shape.default t = "Triangle default called.") :=
  ⟨fun _ => rfl, fun _ => rfl⟩

/-- C6: `return_area` always returns the same concrete variant behind the
uniform interface: a `Square` of side 15, whose area is 225 and whose
default-method call produces the generic default report. -/
theorem return_area_consistent :
    return_area = Square.mk 15 ∧
    Shape.area return_area = 225 ∧
    Shape.default return_area = "default called" :=
  ⟨rfl, rfl, rfl⟩

/-- C7: every module operation is total: for all inputs, including a
negative height, `Triangle.area`, `Square.area`, `get_area` and
`cmp_display` return a result; concretely a triangle with base 5 and
height -10 yields the nonsensical but well-defined area -25. -/
theorem operations_total (b h s x y : Int) :
    (∃ a : Int, Shape.area (Triangle.mk b h) = a) ∧
    (∃ a : Int, Shape.area (Square.mk s) = a) ∧
    (∃ r : String, get_area (Triangle.mk b h) = r) ∧
    (∃ r : String, (Pair.cmp_display (Pair.new x y)).2 = r) ∧
    Shape.area (Triangle.mk 5 (-10)) = -25 := by
  exact ⟨⟨_, rfl⟩, ⟨_, rfl⟩, ⟨_, rfl⟩, ⟨_, rfl⟩, by decide⟩

/-- C8: `Pair.new x y` always succeeds with first field exactly `x` and
second field exactly `y`, and `cmp_display` returns the receiver unchanged
(no side effect beyond the report). -/
theorem pair_new_frame {T : Type} [ToString T] [Preorder T]
    [DecidableRel ((· ≤ ·) : T → T → Prop)] (x y : T) :
    (Pair.new x y).x = x ∧ (Pair.new x y).y = y ∧
    (Pair.cmp_display (Pair.new x y)).1 = Pair.new x y := by
  refine ⟨rfl, rfl, ?_⟩
  by_cases h : (Pair.new x y).y ≤ (Pair.new x y).x <;> simp [Pair.cmp_display, h]

/-- C9: `largest_int` returns the first reference when the first value is
strictly greater and otherwise the second; on equal values it returns the
second reference, the opposite tie-break from `cmp_display`, which reports
the first operand. -/
theorem largest_int_correct (store : Nat → Int) (x y : Nat) :
    (store x > store y → largest_int store x y = x) ∧
    (¬ store x > store y → largest_int store x y = y) ∧
    (store x = store y → largest_int store x y = y) ∧
    (store x = store y →
      (Pair.cmp_display (Pair.new (store x) (store y))).2 =
        "The largest member is x = " ++ toString (store x)) := by
  refine ⟨fun h => ?_, fun h => ?_, fun h => ?_, fun h => ?_⟩
  · simp [largest_int, h]
  · simp [largest_int, h]
  · simp [largest_int, h]
  · simp [Pair.cmp_display, Pair.new, le_of_eq h.symm]

/-- C10: `smallest` prints "less" exactly when the first value is strictly
less than the second, and "greater than or equal" in every other case,
including incomparable values: in the componentwise order on `Int × Int`
the pairs (0, 1) and (1, 0) are incomparable and `smallest` still answers
"greater than or equal". -/
theorem smallest_spec {T : Type} [Preorder T]
    [DecidableRel ((· < ·) : T → T → Prop)] (one two : T) :
    (smallest one two = "less" ↔ one < two) ∧
    (¬ one < two → smallest one two = "greater than or equal") ∧
    smallest ((0, 1) : Int × Int) ((1, 0) : Int × Int) = "greater than or equal" ∧
    ¬ (((0, 1) : Int × Int) < ((1, 0) : Int × Int)) ∧
    ¬ (((1, 0) : Int × Int) < ((0, 1) : Int × Int)) := by
  refine ⟨?_, fun h => ?_, by decide, by decide, by decide⟩
  · by_cases hlt : one < two <;> simp [smallest, hlt]
  · simp [smallest, h]

end RustBookCh10
